/-
Verification of the Relocate-Engine core: the fixed-timestep physics
accumulator and interpolation (PhysicsSystem.cpp), and the quit / shutdown
state machine of the game loop (Game.cpp / Scene.cpp).

Scalars are modelled by `ℚ` (the C++ code uses `float`; we verify the
algorithm over exact arithmetic).  The Box2D world-stepping primitive is an
external collaborator and is modelled as an arbitrary per-body function
passed as a parameter.
-/
import Mathlib

/-- Two-dimensional vector, standing for both `sf::Vector2f` and `b2Vec2`. -/
structure Vec2 where
  x : ℚ
  y : ℚ
deriving DecidableEq

/-- Componentwise addition, as in `b2Vec2 operator+`. -/
def Vec2.add (a b : Vec2) : Vec2 := ⟨a.x + b.x, a.y + b.y⟩

/-- Scalar multiplication, as in `b2Vec2 operator*(float, b2Vec2)`. -/
def Vec2.smul (c : Vec2) : Vec2 → Vec2 := fun v => ⟨c.x * v.x, c.y * v.y⟩

/-- Scalar times vector (the form used by the interpolation code). -/
def Vec2.scale (c : ℚ) (v : Vec2) : Vec2 := ⟨c * v.x, c * v.y⟩

/-- The fixed visual/physics conversion factor, `PhysicsSystem::scale = 100.f`. -/
def PhysicsSystem.scale : ℚ := 100

/-- Conversion from physics (Box2D) coordinates to visual (SFML) coordinates,
`PhysicsSystem::convertToSF`. -/
def PhysicsSystem.convertToSF (v : Vec2) : Vec2 :=
  ⟨v.x * PhysicsSystem.scale, v.y * PhysicsSystem.scale⟩

/-- Conversion from visual (SFML) coordinates to physics (Box2D) coordinates,
`PhysicsSystem::convertToB2`. -/
def PhysicsSystem.convertToB2 (v : Vec2) : Vec2 :=
  ⟨v.x / PhysicsSystem.scale, v.y / PhysicsSystem.scale⟩

/-- Modelled from the spec: the member constant `fixedTimeStep_` is declared in
PhysicsSystem.h, which is not part of the provided sources; the spec fixes it
at 1/60 s in Scenarios A and B. -/
def PhysicsSystem.fixedTimeStep_ : ℚ := 1 / 60

/-- Modelled from the spec: the member constant `maxSteps_` is declared in
PhysicsSystem.h, which is not part of the provided sources; the spec fixes it
at 5 in Scenario B (`maxStepsPerFrame`). -/
def PhysicsSystem.maxSteps_ : ℤ := 5

/-- Box2D body type; the code only distinguishes `b2_staticBody` from the rest. -/
inductive BodyType
  | staticBody
  | kinematicBody
  | dynamicBody
deriving DecidableEq

/-- The observable state of a `b2Body`: pose (in physics coordinates), type and
awake flag. -/
structure Body where
  pos : Vec2
  angle : ℚ
  btype : BodyType
  awake : Bool
deriving DecidableEq

/-- The `Transform` component: visual position and rotation. -/
structure Transform where
  position : Vec2
  rotation : ℚ
deriving DecidableEq

/-- The `RigidBody` component: a nullable reference to the externally-owned
body (here: the body state itself, or `none` for a null pointer), the
previous-step pose, the out-of-sync flag and the disposal queue (bodies are
identified by opaque numeric ids). -/
structure RigidBody where
  body : Option Body
  previousPosition_ : Vec2
  previousAngle_ : ℚ
  isOutOfSync_ : Bool
  disposeList_ : List Nat
deriving DecidableEq

/-- An entity possessing both a `Transform` and a `RigidBody` component, as
yielded by `world->each<Transform, RigidBody>`. -/
structure Entity where
  transform : Transform
  rigidBody : RigidBody
deriving DecidableEq

/-- Trace events of one `PhysicsSystem::update` call, used to state the
per-frame phase order. -/
inductive Phase
  | sync
  | prepareSmoothing
  | fixedStep
  | clearForces
  | interpolate
  | destroyBody (id : Nat)
deriving DecidableEq

/-- Combined state of the physics system and the ECS world it iterates:
accumulator, last interpolation ratio, the `b2World` gravity vector (physics
coordinates) and the entities; `destroyed` logs `world_.DestroyBody` calls. -/
structure SimState where
  timeStepAccumilator_ : ℚ
  fixedTimeStepRatio_ : ℚ
  gravity : Vec2
  entities : List Entity
  destroyed : List Nat
deriving DecidableEq

/-- The out-of-sync pass of `PhysicsSystem::update` (lines 75-88), on one
entity: if the body reference is non-null and the handle is flagged out of
sync, push the transform into the body, wake it, reset the previous pose to
the new pose and clear the flag. -/
def PhysicsSystem.syncEntity (e : Entity) : Entity :=
  match e.rigidBody.body with
  | none => e
  | some b =>
      if e.rigidBody.isOutOfSync_ then
        { e with rigidBody :=
            { e.rigidBody with
                body := some { b with
                    pos := PhysicsSystem.convertToB2 e.transform.position,
                    angle := e.transform.rotation,
                    awake := true },
                previousPosition_ := PhysicsSystem.convertToB2 e.transform.position,
                previousAngle_ := e.transform.rotation,
                isOutOfSync_ := false } }
      else e

/-- `PhysicsSystem::resetSmoothStates`: before a fixed step, capture the
current pose of a non-static attached body into the previous-pose fields. -/
def PhysicsSystem.resetSmoothStates (e : Entity) : Entity :=
  match e.rigidBody.body with
  | none => e
  | some b =>
      if b.btype ≠ BodyType.staticBody then
        { e with rigidBody :=
            { e.rigidBody with
                previousPosition_ := b.pos,
                previousAngle_ := b.angle } }
      else e

/-- Effect of one `b2World::Step` on one entity: the externally-supplied
integration primitive `sb` is applied to the attached body, if any. -/
def PhysicsSystem.stepEntity (sb : Body → Body) (e : Entity) : Entity :=
  match e.rigidBody.body with
  | none => e
  | some b => { e with rigidBody := { e.rigidBody with body := some (sb b) } }

/-- `PhysicsSystem::smoothState` (lines 125-150): for a non-null, non-static
body, write the visual transform as the linear blend
`ratio * currentPos + (1 - ratio) * previousPos` (converted to visual
coordinates); the rotation is written as the body's current angle (the
rotation-blend line is commented out in the source). -/
def PhysicsSystem.smoothState (ratio : ℚ) (e : Entity) : Entity :=
  match e.rigidBody.body with
  | none => e
  | some b =>
      if b.btype ≠ BodyType.staticBody then
        { e with transform :=
            { position := PhysicsSystem.convertToSF
                (Vec2.add (Vec2.scale ratio b.pos)
                  (Vec2.scale (1 - ratio) e.rigidBody.previousPosition_)),
              rotation := b.angle } }
      else e

/-- The fixed-step loop of `PhysicsSystem::update` (lines 91-100): `n` times,
reset the smoothing state of every entity then advance the world one fixed
step.  Returns the entities and the emitted phase trace. -/
def PhysicsSystem.runSteps (sb : Body → Body) : Nat → List Entity → List Entity × List Phase
  | 0, es => (es, [])
  | n + 1, es =>
      let es1 := (es.map PhysicsSystem.resetSmoothStates).map (PhysicsSystem.stepEntity sb)
      let r := PhysicsSystem.runSteps sb n es1
      (r.1, Phase.prepareSmoothing :: Phase.fixedStep :: r.2)

/-- The final pass of `PhysicsSystem::update` (lines 106-114): per entity,
interpolate the visual transform, then destroy every body in the entity's
dispose list and clear the list.  Returns the entities, the destroyed body
ids in order, and the emitted phase trace. -/
def PhysicsSystem.smoothDispose (ratio : ℚ) : List Entity → List Entity × List Nat × List Phase
  | [] => ([], [], [])
  | e :: es =>
      let e1 := PhysicsSystem.smoothState ratio e
      let ds := e1.rigidBody.disposeList_
      let e2 := { e1 with rigidBody := { e1.rigidBody with disposeList_ := [] } }
      let r := PhysicsSystem.smoothDispose ratio es
      (e2 :: r.1, ds ++ r.2.1, (Phase.interpolate :: ds.map Phase.destroyBody) ++ r.2.2)

/-- `PhysicsSystem::update` (lines 60-115): accumulate `dt`, extract whole
fixed steps, reduce the accumulator, compute the interpolation ratio, clamp
the steps, then run sync / clamped fixed steps / clear-forces /
smooth-and-dispose in that order.  `sb` is the external Box2D integration
primitive for one fixed step.  Returns the new state and the phase trace. -/
def PhysicsSystem.update (sb : Body → Body) (s : SimState) (dt : ℚ) : SimState × List Phase :=
  let acc1 := s.timeStepAccumilator_ + dt
  let steps : ℤ := ⌊acc1 / PhysicsSystem.fixedTimeStep_⌋
  let acc2 := if 0 < steps then acc1 - (steps : ℚ) * PhysicsSystem.fixedTimeStep_ else acc1
  let ratio := acc2 / PhysicsSystem.fixedTimeStep_
  let stepsClamped := min steps PhysicsSystem.maxSteps_
  let es0 := s.entities.map PhysicsSystem.syncEntity
  let r1 := PhysicsSystem.runSteps sb stepsClamped.toNat es0
  let r2 := PhysicsSystem.smoothDispose ratio r1.1
  ({ s with
      timeStepAccumilator_ := acc2,
      fixedTimeStepRatio_ := ratio,
      entities := r2.1,
      destroyed := s.destroyed ++ r2.2.1 },
   (Phase.sync :: r1.2) ++ (Phase.clearForces :: r2.2.2))

/-- The whole number of fixed steps extracted by `PhysicsSystem::update`
(line 64): `floor((timeAccumulator + elapsed) / fixedStep)`. -/
def PhysicsSystem.extractedSteps (s : SimState) (dt : ℚ) : ℤ :=
  ⌊(s.timeStepAccumilator_ + dt) / PhysicsSystem.fixedTimeStep_⌋

/-- The clamped step count actually run by `PhysicsSystem::update` (line 72):
`min(steps, maxSteps)`, as a natural number of loop iterations. -/
def PhysicsSystem.stepsClamped (s : SimState) (dt : ℚ) : Nat :=
  (min (PhysicsSystem.extractedSteps s dt) PhysicsSystem.maxSteps_).toNat

/-- `PhysicsSystem::getGravity`: the world gravity converted to visual
coordinates. -/
def PhysicsSystem.getGravity (s : SimState) : Vec2 :=
  PhysicsSystem.convertToSF s.gravity

/-- `PhysicsSystem::setGravity`: set the world gravity from visual-coordinate
components. -/
def PhysicsSystem.setGravity (gx gy : ℚ) (s : SimState) : SimState :=
  { s with gravity := PhysicsSystem.convertToB2 ⟨gx, gy⟩ }

/-- `PhysicsSystem::setGravityMult`: read the current gravity and rescale both
axes by `m`. -/
def PhysicsSystem.setGravityMult (m : ℚ) (s : SimState) : SimState :=
  PhysicsSystem.setGravity ((PhysicsSystem.getGravity s).x * m)
    ((PhysicsSystem.getGravity s).y * m) s

/-- Number of fixed world steps recorded in a phase trace. -/
def countFixedSteps : List Phase → Nat
  | [] => 0
  | Phase.fixedStep :: tr => countFixedSteps tr + 1
  | _ :: tr => countFixedSteps tr

/-- `Game::Status`, in declaration order. -/
inductive Status
  | Uninitialised
  | Ready
  | Running
  | Quitting
  | ShuttingDown
deriving DecidableEq

/-- Outcome of invoking the scene's Lua quit hook `onQuit_`: the hook may be
absent (`!onQuit_.valid()`), its invocation may error (`!attempt.valid()`),
or it may succeed. -/
inductive HookOutcome
  | absent
  | errors
  | succeeds
deriving DecidableEq

/-- Main-thread events of the quit / shutdown path of Game.cpp. -/
inductive GEvent
  | setStatus (s : Status)
  | closeWindow
  | joinRenderThread
  | releaseSceneResources
deriving DecidableEq

/-- The global `Game` state relevant to the quit protocol: the status, whether
the window is open, and the current scene represented by the outcome its
quit hook would produce (`none` when `currentScene_` is null). -/
structure GameState where
  status : Status
  windowOpen : Bool
  currentScene : Option HookOutcome
deriving DecidableEq

/-- `Game::terminate` (lines 244-253): set the status to `ShuttingDown`, then
close (and delete) the window. -/
def Game.terminate (g : GameState) : GameState × List GEvent :=
  ({ g with status := Status.ShuttingDown, windowOpen := false },
   [GEvent.setStatus Status.ShuttingDown, GEvent.closeWindow])

/-- `Scene::quit` (lines 508-524): `quitAnyway` starts as `!onQuit_.valid()`;
if the hook is valid it is invoked, and a failed invocation sets
`quitAnyway`; if `quitAnyway` holds, `Game::terminate` runs. -/
def Scene.quit (onQuit : HookOutcome) (g : GameState) : GameState × List GEvent :=
  let quitAnyway : Bool :=
    match onQuit with
    | HookOutcome.absent => true
    | _ => false
  let quitAnyway : Bool :=
    if quitAnyway = false then
      match onQuit with
      | HookOutcome.errors => true
      | _ => quitAnyway
    else quitAnyway
  if quitAnyway then Game.terminate g else (g, [])

/-- `Game::quit` (lines 227-241): set the status to `Quitting`; if a scene is
present let it decide via `Scene::quit`, otherwise terminate directly. -/
def Game.quit (g : GameState) : GameState × List GEvent :=
  let g1 := { g with status := Status.Quitting }
  match g1.currentScene with
  | some onQuit =>
      let r := Scene.quit onQuit g1
      (r.1, GEvent.setStatus Status.Quitting :: r.2)
  | none =>
      let r := Game.terminate g1
      (r.1, GEvent.setStatus Status.Quitting :: r.2)

/-- `Game::shutdown` (lines 256-261): set the status back to `Uninitialised`,
then delete the current scene. -/
def Game.shutdown (g : GameState) : GameState × List GEvent :=
  ({ g with status := Status.Uninitialised, currentScene := none },
   [GEvent.setStatus Status.Uninitialised, GEvent.releaseSceneResources])

/-- In `Game::start` (line 90) the render thread is detached right after
creation; by the C++ standard, `std::thread::joinable()` is false after
`detach()`, so the post-loop joinability test (line 157) is evaluated on a
detached thread. -/
def Game.renderThreadJoinableAfterDetach : Bool := false

/-- The tail of `Game::start` (lines 156-164) after the main loop exits: join
the render thread only if multithreaded and the thread is joinable, then run
`Game::shutdown`. -/
def Game.startExit (multiThread renderThreadJoinable : Bool) (g : GameState) :
    GameState × List GEvent :=
  let joinTr := if multiThread && renderThreadJoinable then [GEvent.joinRenderThread] else []
  let r := Game.shutdown g
  (r.1, joinTr ++ r.2)

/-- The full main-thread event sequence from a quit request to process exit:
`Game::quit` (inside the loop) followed by the loop-exit tail of
`Game::start`, with the render-thread joinability as left by the `detach()`
at creation. -/
def Game.quitToExit (g : GameState) (multiThread : Bool) : GameState × List GEvent :=
  let r1 := Game.quit g
  let r2 := Game.startExit multiThread Game.renderThreadJoinableAfterDetach r1.1
  (r2.1, r1.2 ++ r2.2)

/-- A concrete sample body used by witness instantiations. -/
def sampleBody : Body :=
  { pos := ⟨3, 4⟩, angle := 2, btype := BodyType.dynamicBody, awake := true }

/-- A concrete sample entity with an attached dynamic body. -/
def sampleEntity : Entity :=
  { transform := { position := ⟨7, 8⟩, rotation := 1 },
    rigidBody :=
      { body := some sampleBody,
        previousPosition_ := ⟨1, 2⟩,
        previousAngle_ := 5,
        isOutOfSync_ := false,
        disposeList_ := [9] } }

/-- A concrete sample entity whose body reference is null. -/
def sampleNullEntity : Entity :=
  { transform := { position := ⟨7, 8⟩, rotation := 1 },
    rigidBody :=
      { body := none,
        previousPosition_ := ⟨1, 2⟩,
        previousAngle_ := 5,
        isOutOfSync_ := true,
        disposeList_ := [] } }

/-- A concrete sample simulation state used by witness instantiations. -/
def sampleSim : SimState :=
  { timeStepAccumilator_ := 1 / 120,
    fixedTimeStepRatio_ := 0,
    gravity := ⟨0, 1 / 10⟩,
    entities := [sampleEntity],
    destroyed := [] }

/-- A concrete running game whose scene has a quit hook that succeeds. -/
def sampleGameVeto : GameState :=
  { status := Status.Running, windowOpen := true,
    currentScene := some HookOutcome.succeeds }

/-- Unfolding lemma: the accumulator field written by `PhysicsSystem::update`. -/
theorem update_timeStepAccumilator (sb : Body → Body) (s : SimState) (dt : ℚ) :
    (PhysicsSystem.update sb s dt).1.timeStepAccumilator_ =
      if 0 < PhysicsSystem.extractedSteps s dt then
        s.timeStepAccumilator_ + dt -
          (PhysicsSystem.extractedSteps s dt : ℚ) * PhysicsSystem.fixedTimeStep_
      else s.timeStepAccumilator_ + dt := rfl

/-- Unfolding lemma: the interpolation ratio written by `PhysicsSystem::update`
is the new accumulator divided by the fixed step. -/
theorem update_fixedTimeStepRatio (sb : Body → Body) (s : SimState) (dt : ℚ) :
    (PhysicsSystem.update sb s dt).1.fixedTimeStepRatio_ =
      (PhysicsSystem.update sb s dt).1.timeStepAccumilator_ / PhysicsSystem.fixedTimeStep_ := rfl

/-- Unfolding lemma: the phase trace emitted by `PhysicsSystem::update`. -/
theorem update_trace (sb : Body → Body) (s : SimState) (dt : ℚ) :
    (PhysicsSystem.update sb s dt).2 =
      (Phase.sync ::
          (PhysicsSystem.runSteps sb (PhysicsSystem.stepsClamped s dt)
            (s.entities.map PhysicsSystem.syncEntity)).2) ++
        (Phase.clearForces ::
          (PhysicsSystem.smoothDispose (PhysicsSystem.update sb s dt).1.fixedTimeStepRatio_
            (PhysicsSystem.runSteps sb (PhysicsSystem.stepsClamped s dt)
              (s.entities.map PhysicsSystem.syncEntity)).1).2.2) := rfl

/-- Unfolding lemma: the entities written back by `PhysicsSystem::update`. -/
theorem update_entities (sb : Body → Body) (s : SimState) (dt : ℚ) :
    (PhysicsSystem.update sb s dt).1.entities =
      (PhysicsSystem.smoothDispose (PhysicsSystem.update sb s dt).1.fixedTimeStepRatio_
        (PhysicsSystem.runSteps sb (PhysicsSystem.stepsClamped s dt)
          (s.entities.map PhysicsSystem.syncEntity)).1).1 := rfl

/-- Smoothing only writes the transform: the rigid-body component is
unchanged. -/
theorem smoothState_rigidBody (ratio : ℚ) (e : Entity) :
    (PhysicsSystem.smoothState ratio e).rigidBody = e.rigidBody := by
  unfold PhysicsSystem.smoothState
  cases hb : e.rigidBody.body with
  | none => rfl
  | some b =>
      by_cases hs : b.btype ≠ BodyType.staticBody
      · simp [hs]
      · simp [hs]

/-- `countFixedSteps` distributes over append. -/
theorem countFixedSteps_append (l m : List Phase) :
    countFixedSteps (l ++ m) = countFixedSteps l + countFixedSteps m := by
  induction l with
  | nil => simp [countFixedSteps]
  | cons p tr ih =>
      cases p <;> simp [countFixedSteps, ih] <;> try omega

/-- Destroy events are not fixed steps. -/
theorem countFixedSteps_map_destroy (ds : List Nat) :
    countFixedSteps (ds.map Phase.destroyBody) = 0 := by
  induction ds with
  | nil => rfl
  | cons d ds ih => simp [countFixedSteps, ih]

/-- The step loop emits one `prepareSmoothing`/`fixedStep` pair per iteration. -/
theorem runSteps_trace (sb : Body → Body) (n : Nat) (es : List Entity) :
    (PhysicsSystem.runSteps sb n es).2 =
      (List.replicate n [Phase.prepareSmoothing, Phase.fixedStep]).flatten := by
  induction n generalizing es with
  | zero => rfl
  | succ n ih => simp [PhysicsSystem.runSteps, ih, List.replicate_succ]

/-- The step loop runs exactly `n` fixed world steps. -/
theorem runSteps_count (sb : Body → Body) (n : Nat) (es : List Entity) :
    countFixedSteps (PhysicsSystem.runSteps sb n es).2 = n := by
  induction n generalizing es with
  | zero => rfl
  | succ n ih => simp [PhysicsSystem.runSteps, countFixedSteps, ih]

/-- The trace of the smoothing/disposal pass: per entity, one interpolation
event followed by one destroy event per queued body. -/
theorem smoothDispose_trace (ratio : ℚ) (es : List Entity) :
    (PhysicsSystem.smoothDispose ratio es).2.2 =
      (es.map (fun e =>
        Phase.interpolate :: e.rigidBody.disposeList_.map Phase.destroyBody)).flatten := by
  induction es with
  | nil => rfl
  | cons e es ih =>
      simp [PhysicsSystem.smoothDispose, ih, smoothState_rigidBody]

/-- The smoothing/disposal pass runs no fixed world steps. -/
theorem smoothDispose_count (ratio : ℚ) (es : List Entity) :
    countFixedSteps (PhysicsSystem.smoothDispose ratio es).2.2 = 0 := by
  induction es with
  | nil => rfl
  | cons e es ih =>
      simp [PhysicsSystem.smoothDispose, countFixedSteps, countFixedSteps_append,
        countFixedSteps_map_destroy, ih]

/-- After the smoothing/disposal pass every entity's dispose list is empty. -/
theorem smoothDispose_all_empty (ratio : ℚ) (es : List Entity) :
    ((PhysicsSystem.smoothDispose ratio es).1.all
      (fun e => e.rigidBody.disposeList_.isEmpty)) = true := by
  induction es with
  | nil => rfl
  | cons e es ih => simp [PhysicsSystem.smoothDispose, ih]

/-- One `PhysicsSystem::update` call runs exactly `min(steps, maxSteps)` fixed
world steps. -/
theorem update_countFixedSteps (sb : Body → Body) (s : SimState) (dt : ℚ) :
    countFixedSteps (PhysicsSystem.update sb s dt).2 = PhysicsSystem.stepsClamped s dt := by
  rw [update_trace]
  simp [countFixedSteps, countFixedSteps_append, runSteps_count, smoothDispose_count]

/-- Claim C2: for every elapsed `dt ≥ 0` and every starting accumulator value
in `[0, fixedStep)`, after the step-extraction phase of
`PhysicsSystem::update` the accumulator satisfies
`0 ≤ timeAccumulator < fixedStep` and the interpolation fraction
`timeAccumulator / fixedStep` lies in `[0, 1)`. -/
theorem update_accumulator_invariant (sb : Body → Body) (s : SimState) (dt : ℚ)
    (hdt : 0 ≤ dt) (hacc0 : 0 ≤ s.timeStepAccumilator_)
    (hacc1 : s.timeStepAccumilator_ < PhysicsSystem.fixedTimeStep_) :
    (0 ≤ (PhysicsSystem.update sb s dt).1.timeStepAccumilator_ ∧
        (PhysicsSystem.update sb s dt).1.timeStepAccumilator_ <
          PhysicsSystem.fixedTimeStep_) ∧
      0 ≤ (PhysicsSystem.update sb s dt).1.fixedTimeStepRatio_ ∧
        (PhysicsSystem.update sb s dt).1.fixedTimeStepRatio_ < 1 := by
  have hpos : (0 : ℚ) < PhysicsSystem.fixedTimeStep_ := by
    norm_num [PhysicsSystem.fixedTimeStep_]
  have ha : 0 ≤ s.timeStepAccumilator_ + dt := add_nonneg hacc0 hdt
  have hkey : 0 ≤ (PhysicsSystem.update sb s dt).1.timeStepAccumilator_ ∧
      (PhysicsSystem.update sb s dt).1.timeStepAccumilator_ <
        PhysicsSystem.fixedTimeStep_ := by
    rw [update_timeStepAccumilator]
    have hfl : ((PhysicsSystem.extractedSteps s dt : ℤ) : ℚ) ≤
        (s.timeStepAccumilator_ + dt) / PhysicsSystem.fixedTimeStep_ :=
      Int.floor_le _
    have hfu : (s.timeStepAccumilator_ + dt) / PhysicsSystem.fixedTimeStep_ <
        ((PhysicsSystem.extractedSteps s dt : ℤ) : ℚ) + 1 :=
      Int.lt_floor_add_one _
    by_cases hn : 0 < PhysicsSystem.extractedSteps s dt
    · have hlow : ((PhysicsSystem.extractedSteps s dt : ℤ) : ℚ) *
          PhysicsSystem.fixedTimeStep_ ≤ s.timeStepAccumilator_ + dt :=
        (le_div_iff hpos).mp hfl
      have hup : s.timeStepAccumilator_ + dt <
          (((PhysicsSystem.extractedSteps s dt : ℤ) : ℚ) + 1) *
            PhysicsSystem.fixedTimeStep_ :=
        (div_lt_iff hpos).mp hfu
      have hexp : (((PhysicsSystem.extractedSteps s dt : ℤ) : ℚ) + 1) *
          PhysicsSystem.fixedTimeStep_ =
            ((PhysicsSystem.extractedSteps s dt : ℤ) : ℚ) *
              PhysicsSystem.fixedTimeStep_ + PhysicsSystem.fixedTimeStep_ := by ring
      rw [if_pos hn]
      constructor
      · linarith
      · rw [hexp] at hup
        linarith
    · have hn0 : 0 ≤ PhysicsSystem.extractedSteps s dt :=
        Int.floor_nonneg.mpr (div_nonneg ha hpos.le)
      have hz : PhysicsSystem.extractedSteps s dt = 0 :=
        le_antisymm (not_lt.mp hn) hn0
      rw [if_neg hn]
      refine ⟨ha, ?_⟩
      rw [hz] at hfu
      have : (s.timeStepAccumilator_ + dt) / PhysicsSystem.fixedTimeStep_ < 1 := by
        simpa using hfu
      exact (div_lt_one hpos).mp this
  refine ⟨hkey, ?_, ?_⟩
  · rw [update_fixedTimeStepRatio]
    exact div_nonneg hkey.1 hpos.le
  · rw [update_fixedTimeStepRatio]
    exact (div_lt_one hpos).mpr hkey.2

/-- Witness for C2 at a concrete frame: `dt = 1/120`, starting accumulator
`1/120`. -/
theorem update_accumulator_invariant_witness :
    (0 ≤ (1 / 120 : ℚ) ∧ 0 ≤ sampleSim.timeStepAccumilator_ ∧
        sampleSim.timeStepAccumilator_ < PhysicsSystem.fixedTimeStep_) ∧
      ((0 ≤ (PhysicsSystem.update id sampleSim (1 / 120)).1.timeStepAccumilator_ ∧
          (PhysicsSystem.update id sampleSim (1 / 120)).1.timeStepAccumilator_ <
            PhysicsSystem.fixedTimeStep_) ∧
        0 ≤ (PhysicsSystem.update id sampleSim (1 / 120)).1.fixedTimeStepRatio_ ∧
          (PhysicsSystem.update id sampleSim (1 / 120)).1.fixedTimeStepRatio_ < 1) :=
  ⟨⟨by norm_num, by norm_num [sampleSim],
      by norm_num [sampleSim, PhysicsSystem.fixedTimeStep_]⟩,
    update_accumulator_invariant id sampleSim (1 / 120) (by norm_num)
      (by norm_num [sampleSim]) (by norm_num [sampleSim, PhysicsSystem.fixedTimeStep_])⟩

/-- Claim C5: for every gravity previously set and every multiplier `m`
(including `0` and negative values), `setGravityMult(m)` followed by
`getGravity()` returns the prior gravity scaled componentwise by `m`; in
particular gravity `(0, 10)` followed by multiplier `2` yields `(0, 20)`. -/
theorem setGravityMult_scales_gravity (s : SimState) (m : ℚ) :
    PhysicsSystem.getGravity (PhysicsSystem.setGravityMult m s) =
      ⟨(PhysicsSystem.getGravity s).x * m, (PhysicsSystem.getGravity s).y * m⟩ ∧
    PhysicsSystem.getGravity
        (PhysicsSystem.setGravityMult 2 (PhysicsSystem.setGravity 0 10 s)) =
      ⟨0, 20⟩ := by
  constructor
  · simp only [PhysicsSystem.getGravity, PhysicsSystem.setGravityMult,
      PhysicsSystem.setGravity, PhysicsSystem.convertToSF, PhysicsSystem.convertToB2,
      PhysicsSystem.scale, Vec2.mk.injEq]
    constructor
    · field_simp
    · field_simp
  · simp only [PhysicsSystem.getGravity, PhysicsSystem.setGravityMult,
      PhysicsSystem.setGravity, PhysicsSystem.convertToSF, PhysicsSystem.convertToB2,
      PhysicsSystem.scale, Vec2.mk.injEq]
    norm_num

/-- Claim C7: every per-entity physics operation of the frame — out-of-sync
synchronization, previous-pose capture and interpolation — is a no-op on an
entity whose rigid-body reference is absent, for every interpolation
ratio. -/
theorem missing_body_noop (ratio : ℚ) (e : Entity)
    (hb : e.rigidBody.body = none) :
    PhysicsSystem.syncEntity e = e ∧
      PhysicsSystem.resetSmoothStates e = e ∧
      PhysicsSystem.smoothState ratio e = e := by
  refine ⟨?_, ?_, ?_⟩
  · simp [PhysicsSystem.syncEntity, hb]
  · simp [PhysicsSystem.resetSmoothStates, hb]
  · simp [PhysicsSystem.smoothState, hb]

/-- Witness for C7 at a concrete entity with a null body reference. -/
theorem missing_body_noop_witness :
    sampleNullEntity.rigidBody.body = none ∧
      (PhysicsSystem.syncEntity sampleNullEntity = sampleNullEntity ∧
        PhysicsSystem.resetSmoothStates sampleNullEntity = sampleNullEntity ∧
        PhysicsSystem.smoothState (1 / 2) sampleNullEntity = sampleNullEntity) :=
  ⟨rfl, missing_body_noop (1 / 2) sampleNullEntity rfl⟩

/-- Claim C9: for every interpolation fraction in `[0, 1)`, the interpolation
pass writes the visual rotation of an entity with an attached non-static body
to exactly the body's current angle — rotation is never blended with the
stored previous angle. -/
theorem smoothState_rotation_snaps (ratio : ℚ) (e : Entity) (b : Body)
    (h0 : 0 ≤ ratio) (h1 : ratio < 1)
    (hb : e.rigidBody.body = some b) (hs : b.btype ≠ BodyType.staticBody) :
    (PhysicsSystem.smoothState ratio e).transform.rotation = b.angle := by
  simp [PhysicsSystem.smoothState, hb, hs]

/-- Witness for C9 at a concrete entity and fraction `1/2`. -/
theorem smoothState_rotation_snaps_witness :
    (0 ≤ (1 / 2 : ℚ) ∧ (1 / 2 : ℚ) < 1 ∧
        sampleEntity.rigidBody.body = some sampleBody ∧
        sampleBody.btype ≠ BodyType.staticBody) ∧
      (PhysicsSystem.smoothState (1 / 2) sampleEntity).transform.rotation =
        sampleBody.angle :=
  ⟨⟨by norm_num, by norm_num, rfl, by decide⟩,
    smoothState_rotation_snaps (1 / 2) sampleEntity sampleBody (by norm_num)
      (by norm_num) rfl (by decide)⟩

/-- Claim C10: if quit is requested while no scene is active, termination
proceeds unconditionally within the same call — the status passes through
`Quitting` directly to `ShuttingDown` and the window is closed, with no veto
opportunity. -/
theorem quit_without_scene_terminates (g : GameState)
    (h : g.currentScene = none) :
    (Game.quit g).1.status = Status.ShuttingDown ∧
      (Game.quit g).1.windowOpen = false ∧
      (Game.quit g).2 = [GEvent.setStatus Status.Quitting,
        GEvent.setStatus Status.ShuttingDown, GEvent.closeWindow] := by
  simp [Game.quit, Game.terminate, h]

/-- Witness for C10 at a concrete running game with no scene. -/
theorem quit_without_scene_terminates_witness :
    (GameState.mk Status.Running true none).currentScene = none ∧
      ((Game.quit (GameState.mk Status.Running true none)).1.status =
          Status.ShuttingDown ∧
        (Game.quit (GameState.mk Status.Running true none)).1.windowOpen = false ∧
        (Game.quit (GameState.mk Status.Running true none)).2 =
          [GEvent.setStatus Status.Quitting, GEvent.setStatus Status.ShuttingDown,
            GEvent.closeWindow]) :=
  ⟨rfl, quit_without_scene_terminates (GameState.mk Status.Running true none) rfl⟩

/-- Claim C8 (counter-evidence): on the concrete multithreaded shutdown path
(non-vetoed quit, no scene), the main-thread event sequence is
status `Quitting`, status `ShuttingDown`, close window, status
`Uninitialised`, release scene resources — the render task is never joined
(it was detached at creation, so `joinable()` is false), and the status
returns to `Uninitialised` before the scene resources are released. -/
theorem shutdown_trace_no_join :
    (Game.quitToExit (GameState.mk Status.Running true none) true).2 =
        [GEvent.setStatus Status.Quitting, GEvent.setStatus Status.ShuttingDown,
          GEvent.closeWindow, GEvent.setStatus Status.Uninitialised,
          GEvent.releaseSceneResources] ∧
      GEvent.joinRenderThread ∉
        (Game.quitToExit (GameState.mk Status.Running true none) true).2 := by
  decide

/-- Claim C1: step extraction follows the spec contract — the accumulator
gains the elapsed time, `steps = floor(accumulator / fixedStep)`, the
accumulator is reduced by `steps * fixedStep` when `steps > 0`, and the
number of fixed steps actually executed is `min(steps, maxSteps)`; in
particular with `elapsed = 1` s from an empty accumulator, `steps = 60`,
exactly 5 steps execute, the accumulator is left at 0 (consistent with all
60 steps drained) and 55 steps of simulated time are discarded. -/
theorem update_step_extraction_contract (sb : Body → Body) (s : SimState)
    (dt : ℚ) (hdt : 0 ≤ dt) :
    ((PhysicsSystem.update sb s dt).1.timeStepAccumilator_ =
        if 0 < PhysicsSystem.extractedSteps s dt then
          s.timeStepAccumilator_ + dt -
            (PhysicsSystem.extractedSteps s dt : ℚ) * PhysicsSystem.fixedTimeStep_
        else s.timeStepAccumilator_ + dt) ∧
      countFixedSteps (PhysicsSystem.update sb s dt).2 =
        (min (PhysicsSystem.extractedSteps s dt) PhysicsSystem.maxSteps_).toNat ∧
      PhysicsSystem.extractedSteps { s with timeStepAccumilator_ := 0 } 1 = 60 ∧
      countFixedSteps
          (PhysicsSystem.update sb { s with timeStepAccumilator_ := 0 } 1).2 = 5 ∧
      (PhysicsSystem.update sb
          { s with timeStepAccumilator_ := 0 } 1).1.timeStepAccumilator_ = 0 ∧
      PhysicsSystem.extractedSteps { s with timeStepAccumilator_ := 0 } 1 -
          min (PhysicsSystem.extractedSteps { s with timeStepAccumilator_ := 0 } 1)
            PhysicsSystem.maxSteps_ = 55 := by
  have h60 : PhysicsSystem.extractedSteps { s with timeStepAccumilator_ := 0 } 1 = 60 := by
    unfold PhysicsSystem.extractedSteps
    rw [show ({ s with timeStepAccumilator_ := 0 } : SimState).timeStepAccumilator_ + 1 =
      ((60 : ℤ) : ℚ) * PhysicsSystem.fixedTimeStep_ by
        norm_num [PhysicsSystem.fixedTimeStep_]]
    rw [mul_div_assoc, div_self (by norm_num [PhysicsSystem.fixedTimeStep_] :
      PhysicsSystem.fixedTimeStep_ ≠ 0), mul_one]
    exact Int.floor_intCast 60
  refine ⟨update_timeStepAccumilator sb s dt, ?_, h60, ?_, ?_, ?_⟩
  · rw [update_countFixedSteps]
    rfl
  · rw [update_countFixedSteps]
    unfold PhysicsSystem.stepsClamped
    rw [h60]
    rfl
  · rw [update_timeStepAccumilator, h60]
    norm_num [PhysicsSystem.fixedTimeStep_]
  · rw [h60]
    rfl

/-- Witness for C1: with `elapsed = 1` s and an empty accumulator exactly 5
fixed steps run and the accumulator is left at 0. -/
theorem update_step_extraction_contract_witness :
    0 ≤ (1 : ℚ) ∧
      countFixedSteps
          (PhysicsSystem.update id
            { sampleSim with timeStepAccumilator_ := 0 } 1).2 = 5 ∧
      (PhysicsSystem.update id
          { sampleSim with timeStepAccumilator_ := 0 } 1).1.timeStepAccumilator_ = 0 :=
  ⟨by norm_num,
    (update_step_extraction_contract id sampleSim 1 (by norm_num)).2.2.2.1,
    (update_step_extraction_contract id sampleSim 1 (by norm_num)).2.2.2.2.1⟩

/-- Claim C3: the per-frame phase order of `PhysicsSystem::update` is exactly
one synchronization pass, then per clamped step a previous-pose capture
immediately followed by one fixed world step, then one clear-forces, then per
entity an interpolation followed by the destruction of that entity's queued
bodies; afterwards every dispose list is empty. -/
theorem update_phase_order (sb : Body → Body) (s : SimState) (dt : ℚ) :
    (PhysicsSystem.update sb s dt).2 =
        Phase.sync ::
          ((List.replicate (PhysicsSystem.stepsClamped s dt)
              [Phase.prepareSmoothing, Phase.fixedStep]).flatten ++
            Phase.clearForces ::
              ((PhysicsSystem.runSteps sb (PhysicsSystem.stepsClamped s dt)
                  (s.entities.map PhysicsSystem.syncEntity)).1.map
                (fun e =>
                  Phase.interpolate ::
                    e.rigidBody.disposeList_.map Phase.destroyBody)).flatten) ∧
      ((PhysicsSystem.update sb s dt).1.entities.all
        (fun e => e.rigidBody.disposeList_.isEmpty)) = true := by
  constructor
  · rw [update_trace, runSteps_trace, smoothDispose_trace]
    simp
  · rw [update_entities]
    exact smoothDispose_all_empty _ _

/-- Claim C4: the interpolation pass writes the visual position as the linear
blend `fraction * currentBodyPosition + (1 - fraction) * previousPosition`
converted to visual coordinates; at `fraction = 0` it equals the
previous-step position and at `fraction = 1` it equals the current body
position (both converted). -/
theorem smoothState_position_blend (ratio : ℚ) (e : Entity) (b : Body)
    (hb : e.rigidBody.body = some b) (hs : b.btype ≠ BodyType.staticBody) :
    (PhysicsSystem.smoothState ratio e).transform.position =
        PhysicsSystem.convertToSF
          (Vec2.add (Vec2.scale ratio b.pos)
            (Vec2.scale (1 - ratio) e.rigidBody.previousPosition_)) ∧
      (ratio = 0 →
        (PhysicsSystem.smoothState ratio e).transform.position =
          PhysicsSystem.convertToSF e.rigidBody.previousPosition_) ∧
      (ratio = 1 →
        (PhysicsSystem.smoothState ratio e).transform.position =
          PhysicsSystem.convertToSF b.pos) := by
  have hmain : (PhysicsSystem.smoothState ratio e).transform.position =
      PhysicsSystem.convertToSF
        (Vec2.add (Vec2.scale ratio b.pos)
          (Vec2.scale (1 - ratio) e.rigidBody.previousPosition_)) := by
    simp [PhysicsSystem.smoothState, hb, hs]
  refine ⟨hmain, ?_, ?_⟩
  · intro h0
    rw [hmain, h0]
    simp [Vec2.add, Vec2.scale, PhysicsSystem.convertToSF]
  · intro h1
    rw [hmain, h1]
    simp [Vec2.add, Vec2.scale, PhysicsSystem.convertToSF]

/-- Witness for C4 at a concrete entity, body and fraction `1/2`. -/
theorem smoothState_position_blend_witness :
    (sampleEntity.rigidBody.body = some sampleBody ∧
        sampleBody.btype ≠ BodyType.staticBody) ∧
      ((PhysicsSystem.smoothState (1 / 2) sampleEntity).transform.position =
          PhysicsSystem.convertToSF
            (Vec2.add (Vec2.scale (1 / 2) sampleBody.pos)
              (Vec2.scale (1 - 1 / 2) sampleEntity.rigidBody.previousPosition_)) ∧
        ((1 / 2 : ℚ) = 0 →
          (PhysicsSystem.smoothState (1 / 2) sampleEntity).transform.position =
            PhysicsSystem.convertToSF sampleEntity.rigidBody.previousPosition_) ∧
        ((1 / 2 : ℚ) = 1 →
          (PhysicsSystem.smoothState (1 / 2) sampleEntity).transform.position =
            PhysicsSystem.convertToSF sampleBody.pos)) :=
  ⟨⟨rfl, by decide⟩,
    smoothState_position_blend (1 / 2) sampleEntity sampleBody rfl (by decide)⟩

/-- Claim C6: with a scene present, termination proceeds if and only if the
quit hook is absent or its invocation errors; when the hook succeeds the game
remains in `Quitting` (not `ShuttingDown`), and a subsequent quit whose hook
does not succeed (absent or failing) reaches `ShuttingDown` — a failing hook
is treated as having declined to veto. -/
theorem quit_veto_protocol (g : GameState) (hk hk2 : HookOutcome)
    (hs : g.currentScene = some hk) (h2 : hk2 ≠ HookOutcome.succeeds) :
    ((Game.quit g).1.status = Status.ShuttingDown ↔ hk ≠ HookOutcome.succeeds) ∧
      (hk = HookOutcome.succeeds →
        (Game.quit g).1.status = Status.Quitting ∧
          (Game.quit g).1.status ≠ Status.ShuttingDown ∧
          (Game.quit
              { (Game.quit g).1 with currentScene := some hk2 }).1.status =
            Status.ShuttingDown) ∧
      (hk = HookOutcome.errors →
        (Game.quit g).1.status = Status.ShuttingDown) := by
  cases hk2 with
  | succeeds => exact absurd rfl h2
  | absent =>
      cases hk <;> simp [Game.quit, Scene.quit, Game.terminate, hs]
  | errors =>
      cases hk <;> simp [Game.quit, Scene.quit, Game.terminate, hs]

/-- Witness for C6 at a concrete running game whose quit hook succeeds,
followed by a quit whose hook is absent. -/
theorem quit_veto_protocol_witness :
    (sampleGameVeto.currentScene = some HookOutcome.succeeds ∧
        HookOutcome.absent ≠ HookOutcome.succeeds) ∧
      (((Game.quit sampleGameVeto).1.status = Status.ShuttingDown ↔
            HookOutcome.succeeds ≠ HookOutcome.succeeds) ∧
        (HookOutcome.succeeds = HookOutcome.succeeds →
          (Game.quit sampleGameVeto).1.status = Status.Quitting ∧
            (Game.quit sampleGameVeto).1.status ≠ Status.ShuttingDown ∧
            (Game.quit
                { (Game.quit sampleGameVeto).1 with
                    currentScene := some HookOutcome.absent }).1.status =
              Status.ShuttingDown) ∧
        (HookOutcome.succeeds = HookOutcome.errors →
          (Game.quit sampleGameVeto).1.status = Status.ShuttingDown)) :=
  ⟨⟨rfl, by decide⟩,
    quit_veto_protocol sampleGameVeto HookOutcome.succeeds HookOutcome.absent rfl
      (by decide)⟩
